import Mathlib

/-!
# Verification of the Zomatooo food-ordering chatbot core

Shallow embedding of the repository's core components:
* the `MockZomatoService` backend (search, menu, cart, order, tracking)
  from `mockZomatoService.js`,
* the `ToolRegistry` from `gemini-food-ordering.js`,
* the per-session chat-history update and the bounded tool-call loop of
  the `/chat` endpoint from `gemini-food-ordering.js`.

JS `Map` objects are modelled as association lists with the usual
insertion-order-preserving `get`/`set`/`delete`; JS numbers holding menu
prices are `Nat`, quantities and cart totals are `Int` (the service never
validates the sign of a quantity); `Date.now()` is passed in explicitly as
a `Nat` millisecond timestamp.
-/

namespace Zomatooo

deriving instance DecidableEq for Except

/-! ## Association-list model of JS `Map` -/

/-- JS `Map.get`: first value bound to `key`, if any. -/
def mapGet {α : Type} : List (String × α) → String → Option α
  | [], _ => none
  | (k, v) :: rest, key => if k == key then some v else mapGet rest key

/-- JS `Map.set`: replace the binding of `key` in place (JS `Map.set` keeps the
original insertion position of an existing key), or append a new binding. -/
def mapSet {α : Type} : List (String × α) → String → α → List (String × α)
  | [], key, v => [(key, v)]
  | (k, w) :: rest, key, v =>
    if k == key then (key, v) :: rest else (k, w) :: mapSet rest key v

/-- JS `Map.delete`: remove the binding of `key`. -/
def mapDelete {α : Type} : List (String × α) → String → List (String × α)
  | [], _ => []
  | (k, w) :: rest, key =>
    if k == key then mapDelete rest key else (k, w) :: mapDelete rest key

theorem mapGet_mapSet_self {α : Type} (l : List (String × α)) (k : String) (v : α) :
    mapGet (mapSet l k v) k = some v := by
  induction l with
  | nil => simp [mapSet, mapGet]
  | cons p rest ih =>
    obtain ⟨k', w⟩ := p
    by_cases h : k' = k
    · simp [mapSet, mapGet, h]
    · simp [mapSet, mapGet, h, ih]

theorem mapGet_mapSet_ne {α : Type} (l : List (String × α)) (k k' : String) (v : α)
    (h : k' ≠ k) : mapGet (mapSet l k v) k' = mapGet l k' := by
  induction l with
  | nil => simp [mapSet, mapGet, Ne.symm h]
  | cons p rest ih =>
    obtain ⟨k'', w⟩ := p
    by_cases hk : k'' = k
    · subst hk
      simp [mapSet, mapGet, Ne.symm h]
    · by_cases hk' : k'' = k'
      · subst hk'
        simp [mapSet, mapGet, hk]
      · simp [mapSet, mapGet, hk, hk', ih]

theorem mapGet_mapDelete_self {α : Type} (l : List (String × α)) (k : String) :
    mapGet (mapDelete l k) k = none := by
  induction l with
  | nil => simp [mapDelete, mapGet]
  | cons p rest ih =>
    obtain ⟨k', w⟩ := p
    by_cases h : k' = k
    · simp [mapDelete, mapGet, h, ih]
    · simp [mapDelete, mapGet, h, ih]

theorem mapGet_mapDelete_ne {α : Type} (l : List (String × α)) (k k' : String)
    (h : k' ≠ k) : mapGet (mapDelete l k) k' = mapGet l k' := by
  induction l with
  | nil => simp [mapDelete, mapGet]
  | cons p rest ih =>
    obtain ⟨k'', w⟩ := p
    by_cases hk : k'' = k
    · subst hk
      simp [mapDelete, mapGet, Ne.symm h, ih]
    · by_cases hk' : k'' = k'
      · subst hk'
        simp [mapDelete, mapGet, hk]
      · simp [mapDelete, mapGet, hk, hk', ih]

/-! ## Data model of `MockZomatoService` (mockZomatoService.js)

Ratings are decimals with one fractional digit in the source (`4.5`); they
are stored here in tenths (`45`) to keep the embedding in exact arithmetic.
They are reference data only and no claim mentions them. -/

structure Restaurant where
  id : String
  name : String
  cuisine : String
  ratingTenths : Nat
  priceRange : String
  location : String
  deliveryTime : String
  image : String
deriving DecidableEq

structure MenuItem where
  id : String
  name : String
  description : String
  price : Nat
  veg : Bool
  ratingTenths : Nat
deriving DecidableEq

structure MenuCategory where
  name : String
  items : List MenuItem
deriving DecidableEq

structure Menu where
  restaurantId : String
  restaurantName : String
  categories : List MenuCategory
deriving DecidableEq

structure CartItem where
  itemId : String
  name : String
  price : Nat
  quantity : Int
  customizations : Option String
  subtotal : Int
deriving DecidableEq

structure Cart where
  restaurantId : String
  items : List CartItem
  total : Int
deriving DecidableEq

structure Order where
  orderId : String
  items : List CartItem
  total : Int
  deliveryAddress : String
  paymentMethod : String
  status : String
  estimatedDelivery : String
  placedAt : Nat
deriving DecidableEq

/-- The mutable state of a `MockZomatoService` instance: `this.carts` and
`this.orders`, both JS `Map`s. -/
structure ServiceState where
  carts : List (String × Cart)
  orders : List (String × Order)
deriving DecidableEq

/-- The `rest_001` entry of `generateMockRestaurants()`. -/
def sevUsalHouse : Restaurant :=
  { id := "rest_001", name := "Sev Usal House", cuisine := "Gujarati",
    ratingTenths := 45, priceRange := "budget", location := "Alkapuri, Vadodara",
    deliveryTime := "25-30 mins", image := "🍛" }

/-- JS `generateMockRestaurants()`, key `vadodara`. -/
def vadodaraRestaurants : List Restaurant :=
  [ sevUsalHouse,
    { id := "rest_002", name := "Mandap Restaurant", cuisine := "North Indian, Gujarati",
      ratingTenths := 43, priceRange := "mid-range", location := "RC Dutt Road, Vadodara",
      deliveryTime := "30-35 mins", image := "🍽️" },
    { id := "rest_003", name := "Jassi De Parathe", cuisine := "North Indian, Punjabi",
      ratingTenths := 46, priceRange := "budget", location := "Sayajigunj, Vadodara",
      deliveryTime := "20-25 mins", image := "🥘" },
    { id := "rest_004", name := "The Barbeque Nation", cuisine := "BBQ, North Indian",
      ratingTenths := 44, priceRange := "premium", location := "Alkapuri, Vadodara",
      deliveryTime := "35-40 mins", image := "🍖" } ]

/-- JS `generateMockRestaurants()`, key `mumbai`. -/
def mumbaiRestaurants : List Restaurant :=
  [ { id := "rest_101", name := "Pizza Express", cuisine := "Italian, Pizza",
      ratingTenths := 42, priceRange := "mid-range", location := "Bandra, Mumbai",
      deliveryTime := "30-35 mins", image := "🍕" },
    { id := "rest_102", name := "Pasta Lovers", cuisine := "Italian",
      ratingTenths := 45, priceRange := "mid-range", location := "Andheri, Mumbai",
      deliveryTime := "25-30 mins", image := "🍝" } ]

/-- JS `generateMockRestaurants()`, key `delhi`. -/
def delhiRestaurants : List Restaurant :=
  [ { id := "rest_201", name := "Biryani Blues", cuisine := "Biryani, Indian",
      ratingTenths := 47, priceRange := "budget", location := "Connaught Place, Delhi",
      deliveryTime := "30-35 mins", image := "🍚" } ]

/-- JS `this.restaurants = this.generateMockRestaurants()`: the keyed regions. -/
def restaurantsData : List (String × List Restaurant) :=
  [("vadodara", vadodaraRestaurants), ("mumbai", mumbaiRestaurants),
   ("delhi", delhiRestaurants)]

/-- JS `getMenus()`. -/
def menusData : List (String × Menu) :=
  [ ("rest_001",
     { restaurantId := "rest_001", restaurantName := "Sev Usal House",
       categories :=
        [ { name := "Breakfast Specials",
            items :=
             [ { id := "item_001", name := "Sev Usal",
                 description := "Traditional Gujarati breakfast with crispy sev and spicy usal",
                 price := 80, veg := true, ratingTenths := 46 },
               { id := "item_002", name := "Dabeli",
                 description := "Famous Gujarati street food with peanuts and pomegranate",
                 price := 40, veg := true, ratingTenths := 45 },
               { id := "item_003", name := "Khaman Dhokla",
                 description := "Steamed savory cake made from gram flour",
                 price := 60, veg := true, ratingTenths := 44 } ] },
          { name := "Main Course",
            items :=
             [ { id := "item_004", name := "Gujarati Thali",
                 description := "Complete meal with dal, kadhi, vegetables, roti, rice",
                 price := 200, veg := true, ratingTenths := 47 },
               { id := "item_005", name := "Undhiyu",
                 description := "Mixed vegetable curry - Gujarati specialty",
                 price := 150, veg := true, ratingTenths := 45 } ] } ] }),
    ("rest_002",
     { restaurantId := "rest_002", restaurantName := "Mandap Restaurant",
       categories :=
        [ { name := "North Indian",
            items :=
             [ { id := "item_101", name := "Butter Chicken",
                 description := "Creamy tomato-based chicken curry",
                 price := 280, veg := false, ratingTenths := 46 },
               { id := "item_102", name := "Paneer Butter Masala",
                 description := "Cottage cheese in rich creamy gravy",
                 price := 220, veg := true, ratingTenths := 45 } ] } ] }),
    ("rest_003",
     { restaurantId := "rest_003", restaurantName := "Jassi De Parathe",
       categories :=
        [ { name := "Parathas",
            items :=
             [ { id := "item_201", name := "Aloo Paratha",
                 description := "Stuffed with spiced potato filling",
                 price := 60, veg := true, ratingTenths := 47 },
               { id := "item_202", name := "Paneer Paratha",
                 description := "Stuffed with cottage cheese",
                 price := 80, veg := true, ratingTenths := 46 },
               { id := "item_203", name := "Mix Veg Paratha",
                 description := "Stuffed with mixed vegetables",
                 price := 70, veg := true, ratingTenths := 45 } ] } ] }),
    ("rest_101",
     { restaurantId := "rest_101", restaurantName := "Pizza Express",
       categories :=
        [ { name := "Pizzas",
            items :=
             [ { id := "item_301", name := "Margherita Pizza",
                 description := "Classic pizza with mozzarella and basil",
                 price := 299, veg := true, ratingTenths := 44 },
               { id := "item_302", name := "Pepperoni Pizza",
                 description := "Loaded with pepperoni and cheese",
                 price := 399, veg := false, ratingTenths := 45 } ] } ] }) ]

/-! ## String helpers mirroring the JS expressions -/

/-- JS `String.prototype.toLowerCase` (character-wise lowering; the
repository's data and filter arguments are ASCII, where this coincides with
the JS semantics). Implemented on the character list so that it reduces in
the kernel, unlike `String.toLower`. -/
def lowerStr (s : String) : String :=
  String.mk (s.toList.map Char.toLower)

/-- JS `location.toLowerCase().replace(/\s+/g, '')`: lower-case and strip all
whitespace characters. -/
def normalizeLocation (s : String) : String :=
  String.mk ((lowerStr s).toList.filter (fun c => !c.isWhitespace))

/-- Tests whether `needle` occurs at the start of the list
(`String.prototype.includes` helper). -/
def startsWithList : List Char → List Char → Bool
  | [], _ => true
  | _ :: _, [] => false
  | a :: as, b :: bs => a == b && startsWithList as bs

/-- JS `hay.includes(needle)` on character lists. -/
def includesList (hay needle : List Char) : Bool :=
  match hay with
  | [] => needle.isEmpty
  | _ :: t => startsWithList needle hay || includesList t needle

/-- JS `hay.includes(needle)`. -/
def strIncludes (hay needle : String) : Bool :=
  includesList hay.toList needle.toList

/-- Truthiness of a JS string argument that may be absent: `null`/`undefined`
and the empty string are falsy, every other string is truthy. -/
def jsProvided : Option String → Bool
  | none => false
  | some s => !(s == "")

/-! ## The six service operations -/

/-- Result shape of `searchRestaurants`. -/
structure SearchResult where
  success : Bool
  location : String
  count : Nat
  restaurants : List Restaurant
deriving DecidableEq

/-- JS `MockZomatoService.searchRestaurants(location, cuisine, priceRange)`. -/
def searchRestaurants (location : String) (cuisine priceRange : Option String) :
    SearchResult :=
  let locationKey := normalizeLocation location
  let base := (mapGet restaurantsData locationKey).getD vadodaraRestaurants
  let afterCuisine :=
    if jsProvided cuisine then
      let cuisineLower := lowerStr (cuisine.getD "")
      base.filter (fun r => strIncludes (lowerStr r.cuisine) cuisineLower)
    else base
  let afterPrice :=
    if jsProvided priceRange then
      afterCuisine.filter (fun r => r.priceRange == priceRange.getD "")
    else afterCuisine
  { success := true, location := location, count := afterPrice.length,
    restaurants := afterPrice }

/-- JS `MockZomatoService.getMenu(restaurantId)`. -/
def getMenu (restaurantId : String) : Except String Menu :=
  match mapGet menusData restaurantId with
  | none => Except.error "Restaurant not found"
  | some menu => Except.ok menu

/-- The `for (const category of menu.categories)` item search in `addToCart`:
first category containing the item id wins. -/
def findItem : List MenuCategory → String → Option MenuItem
  | [], _ => none
  | c :: rest, itemId =>
    match c.items.find? (fun i => i.id == itemId) with
    | some item => some item
    | none => findItem rest itemId

/-- Restaurant lookup followed by the category scan, as `addToCart` performs
them. -/
def findMenuItem (restaurantId itemId : String) : Option MenuItem :=
  match mapGet menusData restaurantId with
  | none => none
  | some menu => findItem menu.categories itemId

/-- JS `cart.items.reduce((sum, item) => sum + item.subtotal, 0)`. -/
def sumSubtotals (items : List CartItem) : Int :=
  items.foldl (fun sum item => sum + item.subtotal) 0

/-- JS `MockZomatoService.addToCart(sessionId, restaurantId, itemId, quantity,
customizations)`. The cart is created (and bound to this call's
`restaurantId`) before the restaurant and item lookups, so it persists even
when the call fails. No validation of `quantity` is performed. -/
def addToCart (st : ServiceState) (sessionId restaurantId itemId : String)
    (quantity : Int) (customizations : Option String) :
    Except String Cart × ServiceState :=
  let hadCart := (mapGet st.carts sessionId).isSome
  let freshCart : Cart := { restaurantId := restaurantId, items := [], total := 0 }
  let st1 := if hadCart then st
             else { st with carts := mapSet st.carts sessionId freshCart }
  let cart := (mapGet st.carts sessionId).getD freshCart
  match mapGet menusData restaurantId with
  | none => (Except.error "Restaurant not found", st1)
  | some menu =>
    match findItem menu.categories itemId with
    | none => (Except.error "Item not found", st1)
    | some foundItem =>
      let cartItem : CartItem :=
        { itemId := itemId, name := foundItem.name, price := foundItem.price,
          quantity := quantity, customizations := customizations,
          subtotal := (foundItem.price : Int) * quantity }
      let newItems := cart.items ++ [cartItem]
      let newCart : Cart :=
        { cart with items := newItems, total := sumSubtotals newItems }
      (Except.ok newCart, { st1 with carts := mapSet st1.carts sessionId newCart })

/-- The cart payload returned by `viewCart`: the empty-cart shape
`{items: [], total: 0}` carries no `restaurantId` field in the source, hence
the `Option`. -/
structure ViewedCart where
  restaurantId : Option String
  items : List CartItem
  total : Int
deriving DecidableEq

/-- JS `MockZomatoService.viewCart(sessionId)` (always `success: true`). -/
def viewCart (st : ServiceState) (sessionId : String) : ViewedCart :=
  match mapGet st.carts sessionId with
  | none => { restaurantId := none, items := [], total := 0 }
  | some cart =>
    if cart.items.length == 0 then { restaurantId := none, items := [], total := 0 }
    else { restaurantId := some cart.restaurantId, items := cart.items,
           total := cart.total }

/-- JS `MockZomatoService.placeOrder(sessionId, deliveryAddress, paymentMethod)`;
`now` is the `Date.now()` millisecond timestamp, so the generated order id is
`"ORD" ++ Nat.repr now` (the JS template literal `` `ORD${Date.now()}` ``). -/
def placeOrder (st : ServiceState) (sessionId deliveryAddress paymentMethod : String)
    (now : Nat) : Except String Order × ServiceState :=
  match mapGet st.carts sessionId with
  | none => (Except.error "Cart is empty", st)
  | some cart =>
    if cart.items.length == 0 then (Except.error "Cart is empty", st)
    else
      let orderId := "ORD" ++ Nat.repr now
      let order : Order :=
        { orderId := orderId, items := cart.items, total := cart.total,
          deliveryAddress := deliveryAddress, paymentMethod := paymentMethod,
          status := "confirmed", estimatedDelivery := "30-35 mins",
          placedAt := now }
      (Except.ok order,
       { st with orders := mapSet st.orders orderId order,
                 carts := mapDelete st.carts sessionId })

/-- JS `const statuses = ['confirmed', 'preparing', 'out_for_delivery',
'delivered']` in `trackOrder`. -/
def orderStatuses : List String :=
  ["confirmed", "preparing", "out_for_delivery", "delivered"]

/-- JS `Array.prototype.indexOf`: `-1` when absent. -/
def jsIndexOf (l : List String) (s : String) : Int :=
  match l.findIdx? (fun x => x == s) with
  | some i => (i : Int)
  | none => -1

/-- The status update a single successful `trackOrder` call applies:
`if (currentStatusIndex < statuses.length - 1) order.status =
statuses[currentStatusIndex + 1]`. -/
def trackStep (status : String) : String :=
  let idx := jsIndexOf orderStatuses status
  if idx < (orderStatuses.length : Int) - 1 then
    orderStatuses.getD (idx + 1).toNat status
  else status

/-- The projected order view returned by `trackOrder`. -/
structure TrackView where
  orderId : String
  status : String
  estimatedDelivery : String
  deliveryAddress : String
  total : Int
deriving DecidableEq

/-- JS `MockZomatoService.trackOrder(orderId)`: the stored order's status is
advanced in place and a projection of the updated order is returned. -/
def trackOrder (st : ServiceState) (orderId : String) :
    Except String TrackView × ServiceState :=
  match mapGet st.orders orderId with
  | none => (Except.error "Order not found", st)
  | some order =>
    let updated : Order := { order with status := trackStep order.status }
    (Except.ok
      { orderId := updated.orderId, status := updated.status,
        estimatedDelivery := updated.estimatedDelivery,
        deliveryAddress := updated.deliveryAddress, total := updated.total },
     { st with orders := mapSet st.orders orderId updated })

/-! ## Tool registry (gemini-food-ordering.js, `ToolRegistry`)

Handlers are JS closures over the backend; the claims only concern the
name-keyed registration map, so a definition is its `name` and
`description`. -/

structure ToolDef where
  name : String
  description : String
deriving DecidableEq

/-- JS `ToolRegistry.registerTool(definition)`: an unconditional
`this.tools.set(definition.name, definition)` followed by a log line. -/
def registerTool (tools : List (String × ToolDef)) (d : ToolDef) :
    List (String × ToolDef) :=
  mapSet tools d.name d

/-! ## Session history update (`app.post('/chat')`) -/

/-- One entry of `session.history`: `{role, parts: [{text}]}`. -/
structure ChatMessage where
  role : String
  text : String
deriving DecidableEq

/-- JS `{role: 'user', parts: [{text}]}`. -/
def userMsg (t : String) : ChatMessage := { role := "user", text := t }

/-- JS `{role: 'model', parts: [{text}]}`. -/
def modelMsg (t : String) : ChatMessage := { role := "model", text := t }

/-- The history update at the end of a completed chat turn:
`session.history.push({role:'user',...}, {role:'model',...})` followed by
`if (session.history.length > 40) session.history =
session.history.slice(-40)`. -/
def appendTurn (history : List ChatMessage) (userText modelText : String) :
    List ChatMessage :=
  let pushed := history ++ [userMsg userText, modelMsg modelText]
  if 40 < pushed.length then pushed.drop (pushed.length - 40) else pushed

/-- Session histories reachable from a fresh session (`history: []`) by
completed chat turns; the endpoint mutates `session.history` nowhere else. -/
inductive ReachableHistory : List ChatMessage → Prop
  | init : ReachableHistory []
  | step (h : List ChatMessage) (u m : String) :
      ReachableHistory h → ReachableHistory (appendTurn h u m)

/-! ## The bounded tool-call loop (`app.post('/chat')`)

The language model is an opaque capability: `respond k` is the model's
response after the `k`-th function result is sent back (`chat.sendMessage`),
`first` the response to the initial user message. `text = none` models a
response whose `response.text()` throws (no text part); tool execution is
folded into the opaque `respond`, since its result only flows back into the
model. -/

structure FnCall where
  name : String
deriving DecidableEq

structure ModelResponse where
  functionCalls : List FnCall
  text : Option String
deriving DecidableEq

/-- JS `const maxCalls = 10`. -/
def maxCalls : Nat := 10

/-- The `while (response.functionCalls?.length > 0 && callCount < maxCalls)`
loop: each iteration executes the first requested call, re-invokes the model
and increments `callCount`. Returns the final `(callCount, response)`. -/
def runToolLoop (respond : Nat → ModelResponse) (callCount : Nat)
    (response : ModelResponse) : Nat × ModelResponse :=
  if h : 0 < response.functionCalls.length ∧ callCount < maxCalls then
    runToolLoop respond (callCount + 1) (respond callCount)
  else (callCount, response)
termination_by maxCalls - callCount
decreasing_by omega

/-- Fallback used when `response.text()` throws after at least one tool
call. -/
def fallbackBusy : String :=
  "I've processed your request. Please let me know if you need any clarification or would like to proceed with your order."

/-- Fallback used when `response.text()` throws and no tool was called. -/
def fallbackIdle : String :=
  "I'm here to help you order food! Try asking me to search for restaurants, view menus, or place an order."

/-- The `try { finalResponse = response.text() } catch { ... }` block. -/
def finalizeText (callCount : Nat) (response : ModelResponse) : String :=
  match response.text with
  | some t => t
  | none => if callCount > 0 then fallbackBusy else fallbackIdle

/-- One `/chat` turn after the initial model invocation: run the bounded
tool-call loop, then produce the final text (with fallback). Returns
`(finalResponse, callCount)`. -/
def processTurn (respond : Nat → ModelResponse) (first : ModelResponse) :
    String × Nat :=
  let result := runToolLoop respond 0 first
  (finalizeText result.1 result.2, result.1)

/-! ## Decimal representation of `Nat`

`Nat.repr` (the model of the template literal `` `ORD${Date.now()}` ``) is
fuel-based, so we relate it to a fuel-free digit list and prove it
injective. -/

/-- Most-significant-first decimal digit characters of `n`. -/
def natDigits (n : Nat) : List Char :=
  if _h : n < 10 then [Nat.digitChar n]
  else natDigits (n / 10) ++ [Nat.digitChar (n % 10)]
termination_by n
decreasing_by exact Nat.div_lt_self (by omega) (by omega)

theorem natDigits_lt (n : Nat) (h : n < 10) : natDigits n = [Nat.digitChar n] := by
  rw [natDigits]
  simp [h]

theorem natDigits_ge (n : Nat) (h : ¬ n < 10) :
    natDigits n = natDigits (n / 10) ++ [Nat.digitChar (n % 10)] := by
  rw [natDigits]
  simp [h]

theorem natDigits_ne_nil (n : Nat) : natDigits n ≠ [] := by
  by_cases h : n < 10
  · rw [natDigits_lt n h]
    simp
  · rw [natDigits_ge n h]
    simp

theorem toDigitsCore_eq_natDigits :
    ∀ (n fuel : Nat) (ds : List Char), 0 < fuel → n < 10 ^ fuel →
      Nat.toDigitsCore 10 fuel n ds = natDigits n ++ ds := by
  intro n
  induction n using Nat.strong_induction_on with
  | _ n ih =>
    intro fuel ds hf hn
    obtain ⟨f, rfl⟩ : ∃ f, fuel = f + 1 := ⟨fuel - 1, by omega⟩
    by_cases h10 : n < 10
    · have hdiv : n / 10 = 0 := Nat.div_eq_of_lt h10
      have hmod : n % 10 = n := Nat.mod_eq_of_lt h10
      simp [Nat.toDigitsCore, hdiv, hmod, natDigits_lt n h10]
    · have hdiv : ¬ n / 10 = 0 := by
        have : 1 ≤ n / 10 := (Nat.one_le_div_iff (by omega)).mpr (by omega)
        omega
      have hf1 : 0 < f := by
        rcases Nat.eq_zero_or_pos f with hf0 | hf0
        · subst hf0
          simp at hn
          omega
        · exact hf0
      have hlt : n / 10 < 10 ^ f := by
        have hp : n < 10 ^ f * 10 := by
          calc n < 10 ^ (f + 1) := hn
          _ = 10 ^ f * 10 := pow_succ 10 f
        exact (Nat.div_lt_iff_lt_mul (by omega)).mpr hp
      have hrec := ih (n / 10) (Nat.div_lt_self (by omega) (by omega)) f
        (Nat.digitChar (n % 10) :: ds) hf1 hlt
      simp only [Nat.toDigitsCore, hdiv, if_false]
      rw [hrec, natDigits_ge n h10, List.append_assoc]
      simp

theorem natRepr_eq_natDigits (n : Nat) : Nat.repr n = (natDigits n).asString := by
  have hlt : n < 10 ^ (n + 1) := by
    calc n < 10 ^ n := Nat.lt_pow_self (by omega) n
    _ ≤ 10 ^ (n + 1) := Nat.pow_le_pow_right (by omega) (by omega)
  show (Nat.toDigits 10 n).asString = (natDigits n).asString
  rw [Nat.toDigits, toDigitsCore_eq_natDigits n (n + 1) [] (by omega) hlt,
    List.append_nil]

theorem digitChar_inj_of_lt10 :
    ∀ a < 10, ∀ b < 10, Nat.digitChar a = Nat.digitChar b → a = b := by decide

theorem natDigits_inj : ∀ a b : Nat, natDigits a = natDigits b → a = b := by
  intro a
  induction a using Nat.strong_induction_on with
  | _ a ih =>
    intro b h
    by_cases ha : a < 10 <;> by_cases hb : b < 10
    · rw [natDigits_lt a ha, natDigits_lt b hb] at h
      exact digitChar_inj_of_lt10 a ha b hb (List.singleton_inj.mp h)
    · rw [natDigits_lt a ha, natDigits_ge b hb] at h
      have hlen := congrArg List.length h
      simp only [List.length_singleton, List.length_append] at hlen
      have hpos := List.length_pos.mpr (natDigits_ne_nil (b / 10))
      omega
    · rw [natDigits_ge a ha, natDigits_lt b hb] at h
      have hlen := congrArg List.length h
      simp only [List.length_singleton, List.length_append] at hlen
      have hpos := List.length_pos.mpr (natDigits_ne_nil (a / 10))
      omega
    · rw [natDigits_ge a ha, natDigits_ge b hb] at h
      obtain ⟨h1, h2⟩ := List.append_inj' h (by simp)
      have hmod : a % 10 = b % 10 :=
        digitChar_inj_of_lt10 (a % 10) (Nat.mod_lt a (by omega)) (b % 10)
          (Nat.mod_lt b (by omega)) (List.singleton_inj.mp h2)
      have hdiv : a / 10 = b / 10 :=
        ih (a / 10) (Nat.div_lt_self (by omega) (by omega)) (b / 10) h1
      omega

theorem natRepr_inj {a b : Nat} (h : Nat.repr a = Nat.repr b) : a = b := by
  rw [natRepr_eq_natDigits, natRepr_eq_natDigits] at h
  exact natDigits_inj a b (List.asString_inj.mp h)

/-! ## Theorems for the claims -/

theorem runToolLoop_le (respond : Nat → ModelResponse) :
    ∀ (k callCount : Nat) (r : ModelResponse),
      maxCalls - callCount = k → callCount ≤ maxCalls →
      (runToolLoop respond callCount r).1 ≤ maxCalls ∧
      ((∀ n, (respond n).functionCalls ≠ []) → r.functionCalls ≠ [] →
        (runToolLoop respond callCount r).1 = maxCalls) := by
  intro k
  induction k with
  | zero =>
    intro c r hk hc
    rw [runToolLoop, dif_neg (by omega)]
    exact ⟨by omega, fun _ _ => by omega⟩
  | succ k ihk =>
    intro c r hk hc
    rw [runToolLoop]
    by_cases hcond : 0 < r.functionCalls.length ∧ c < maxCalls
    · rw [dif_pos hcond]
      have hrec := ihk (c + 1) (respond c) (by omega) (by omega)
      exact ⟨hrec.1, fun hall _ =>
        hrec.2 hall (List.length_pos.mp (List.length_pos.mpr (hall c)))⟩
    · rw [dif_neg hcond]
      refine ⟨hc, fun hall hr => ?_⟩
      have hlen : 0 < r.functionCalls.length := List.length_pos.mpr hr
      show c = maxCalls
      omega

/-- C1: for every user turn, the orchestration loop of
`app.post('/chat')` executes at most `maxCalls = 10` tool calls — even
against a model capability that requests another tool call in every
response, in which case the loop exits exactly when the counter reaches the
cap — and the turn still produces a final text (the synthesized fallback
when the terminal response has no text part) rather than looping forever or
raising an error. The counter's strict increase per iteration is the
`callCount + 1` in `runToolLoop`, and totality of `runToolLoop` is
termination of the loop. -/
theorem claim_C1 (respond : Nat → ModelResponse) (first : ModelResponse) :
    (processTurn respond first).2 ≤ maxCalls ∧
    ((∀ n, (respond n).functionCalls ≠ []) → first.functionCalls ≠ [] →
      (processTurn respond first).2 = maxCalls) ∧
    ((runToolLoop respond 0 first).2.text = none →
      0 < (processTurn respond first).2 →
      (processTurn respond first).1 = fallbackBusy) ∧
    ((runToolLoop respond 0 first).2.text = none →
      (processTurn respond first).2 = 0 →
      (processTurn respond first).1 = fallbackIdle) := by
  have h := runToolLoop_le respond (maxCalls - 0) 0 first rfl (by omega)
  refine ⟨h.1, h.2, ?_, ?_⟩
  · intro htext hpos
    show finalizeText (runToolLoop respond 0 first).1 (runToolLoop respond 0 first).2
      = fallbackBusy
    unfold finalizeText
    rw [htext]
    have : (runToolLoop respond 0 first).1 > 0 := hpos
    simp [this]
  · intro htext hzero
    show finalizeText (runToolLoop respond 0 first).1 (runToolLoop respond 0 first).2
      = fallbackIdle
    unfold finalizeText
    rw [htext]
    have hz : (runToolLoop respond 0 first).1 = 0 := hzero
    simp [hz]

/-- Witness for C1: a test double that always requests another tool call
drives the loop to exactly the cap of 10. -/
theorem claim_C1_witness :
    (processTurn (fun _ => ModelResponse.mk [{ name := "view_cart" }] none)
      (ModelResponse.mk [{ name := "view_cart" }] none)).2 = maxCalls :=
  (claim_C1 _ _).2.1 (fun _ => by decide) (by decide)

/-- The emptiness test of `placeOrder`:
`!cart || cart.items.length === 0`. -/
def cartEmptyB (st : ServiceState) (sessionId : String) : Bool :=
  match mapGet st.carts sessionId with
  | none => true
  | some cart => cart.items.length == 0

/-- C2: `placeOrder` fails with the empty-cart error exactly when the
session's cart is missing or has zero items, leaving the whole service
state unchanged in that case; otherwise it returns an order capturing
exactly the cart's items and total, stores it under its order id, removes
the cart, and an immediately following `viewCart` on the session returns
the empty-cart shape `{items: [], total: 0}`. -/
theorem claim_C2 (st : ServiceState) (sid addr pm : String) (now : Nat) :
    ((placeOrder st sid addr pm now).1 = Except.error "Cart is empty" ↔
      cartEmptyB st sid = true) ∧
    (cartEmptyB st sid = true →
      placeOrder st sid addr pm now = (Except.error "Cart is empty", st)) ∧
    (∀ c, mapGet st.carts sid = some c → c.items ≠ [] →
      ∃ o, (placeOrder st sid addr pm now).1 = Except.ok o ∧
        o.items = c.items ∧ o.total = c.total ∧ o.status = "confirmed" ∧
        mapGet (placeOrder st sid addr pm now).2.orders o.orderId = some o ∧
        mapGet (placeOrder st sid addr pm now).2.carts sid = none ∧
        viewCart (placeOrder st sid addr pm now).2 sid =
          { restaurantId := none, items := [], total := 0 }) := by
  cases hm : mapGet st.carts sid with
  | none =>
    refine ⟨by simp [placeOrder, cartEmptyB, hm], by simp [placeOrder, cartEmptyB, hm], ?_⟩
    intro c hc
    cases hc
  | some c =>
    by_cases hnil : c.items = []
    · refine ⟨by simp [placeOrder, cartEmptyB, hm, hnil],
        by simp [placeOrder, cartEmptyB, hm, hnil], ?_⟩
      intro c' hc' hne
      cases hc'
      exact absurd hnil hne
    · have hlen : ¬ c.items.length = 0 := by
        simpa [List.length_eq_zero] using hnil
      refine ⟨by simp [placeOrder, cartEmptyB, hm, hlen],
        by simp [cartEmptyB, hm, hlen], ?_⟩
      intro c' hc' _
      cases hc'
      refine ⟨{ orderId := "ORD" ++ Nat.repr now, items := c.items,
                total := c.total, deliveryAddress := addr, paymentMethod := pm,
                status := "confirmed", estimatedDelivery := "30-35 mins",
                placedAt := now },
        by simp [placeOrder, hm, hlen], rfl, rfl, rfl, ?_, ?_, ?_⟩
      · simp [placeOrder, hm, hnil, mapGet_mapSet_self]
      · simp [placeOrder, hm, hnil, mapGet_mapDelete_self]
      · simp [viewCart, placeOrder, hm, hnil, mapGet_mapDelete_self]

/-- A concrete cart line used by several witness states. -/
def sampleCartLine : CartItem :=
  { itemId := "item_001", name := "Sev Usal", price := 80, quantity := 2,
    customizations := none, subtotal := 160 }

/-- A concrete one-line cart used by several witness states. -/
def sampleCart : Cart :=
  { restaurantId := "rest_001", items := [sampleCartLine], total := 160 }

/-- A concrete service state with one non-empty cart for session `s1`. -/
def sampleState : ServiceState :=
  { carts := [("s1", sampleCart)], orders := [] }

/-- Witness for C2: placing the order of a one-line cart succeeds, snapshots
the cart, and leaves the session's cart empty for `viewCart`. -/
theorem claim_C2_witness :
    ∃ o, (placeOrder sampleState "s1" "123 Main St" "card" 42).1 = Except.ok o ∧
      o.items = sampleCart.items ∧ o.total = sampleCart.total ∧
      o.status = "confirmed" ∧
      mapGet (placeOrder sampleState "s1" "123 Main St" "card" 42).2.orders
        o.orderId = some o ∧
      mapGet (placeOrder sampleState "s1" "123 Main St" "card" 42).2.carts
        "s1" = none ∧
      viewCart (placeOrder sampleState "s1" "123 Main St" "card" 42).2 "s1" =
        { restaurantId := none, items := [], total := 0 } :=
  (claim_C2 sampleState "s1" "123 Main St" "card" 42).2.2 sampleCart
    (by decide) (by decide)

theorem trackOrder_some (st : ServiceState) (oid : String) (o : Order)
    (h : mapGet st.orders oid = some o) :
    trackOrder st oid =
      (Except.ok { orderId := o.orderId, status := trackStep o.status,
                   estimatedDelivery := o.estimatedDelivery,
                   deliveryAddress := o.deliveryAddress, total := o.total },
       { st with orders := mapSet st.orders oid
                   { o with status := trackStep o.status } }) := by
  simp [trackOrder, h]

/-- C3: `trackOrder` on an unknown order id fails with the order-not-found
error and changes nothing; on a stored order it returns the order advanced
by exactly one `trackStep` and stores that advanced order; `trackStep`
walks the fixed sequence confirmed → preparing → out_for_delivery →
delivered one step at a time with delivered as a fixed point (no
regression, skip, or loop); and three calls on a freshly placed
(`confirmed`) order end with status `delivered`. -/
theorem claim_C3 (st : ServiceState) (oid : String) :
    (mapGet st.orders oid = none →
      trackOrder st oid = (Except.error "Order not found", st)) ∧
    (∀ o, mapGet st.orders oid = some o →
      (trackOrder st oid).1 = Except.ok
        { orderId := o.orderId, status := trackStep o.status,
          estimatedDelivery := o.estimatedDelivery,
          deliveryAddress := o.deliveryAddress, total := o.total } ∧
      mapGet (trackOrder st oid).2.orders oid =
        some { o with status := trackStep o.status }) ∧
    (trackStep "confirmed" = "preparing" ∧
      trackStep "preparing" = "out_for_delivery" ∧
      trackStep "out_for_delivery" = "delivered" ∧
      trackStep "delivered" = "delivered") ∧
    (∀ o, mapGet st.orders oid = some o → o.status = "confirmed" →
      ∃ v o3,
        (trackOrder (trackOrder (trackOrder st oid).2 oid).2 oid).1 =
          Except.ok v ∧ v.status = "delivered" ∧
        mapGet (trackOrder (trackOrder (trackOrder st oid).2 oid).2 oid).2.orders
          oid = some o3 ∧ o3.status = "delivered") := by
  refine ⟨fun h => by simp [trackOrder, h], ?_, by decide, ?_⟩
  · intro o h
    rw [trackOrder_some st oid o h]
    exact ⟨rfl, mapGet_mapSet_self _ _ _⟩
  · intro o h hconf
    have h1 := trackOrder_some st oid o h
    have hg1 : mapGet (trackOrder st oid).2.orders oid =
        some { o with status := trackStep o.status } := by
      rw [h1]
      exact mapGet_mapSet_self _ _ _
    have h2 := trackOrder_some _ oid _ hg1
    have hg2 : mapGet (trackOrder (trackOrder st oid).2 oid).2.orders oid =
        some { o with status := trackStep (trackStep o.status) } := by
      rw [h2]
      exact mapGet_mapSet_self _ _ _
    have h3 := trackOrder_some _ oid _ hg2
    refine ⟨_, { o with status := trackStep (trackStep (trackStep o.status)) },
      by rw [h3], ?_, ?_, ?_⟩
    · show trackStep (trackStep (trackStep o.status)) = "delivered"
      rw [hconf]
      decide
    · rw [h3]
      exact mapGet_mapSet_self _ _ _
    · show trackStep (trackStep (trackStep o.status)) = "delivered"
      rw [hconf]
      decide

/-- A concrete freshly-placed order and order store for witnesses. -/
def sampleOrder : Order :=
  { orderId := "ORD42", items := [sampleCartLine], total := 160,
    deliveryAddress := "123 Main St", paymentMethod := "card",
    status := "confirmed", estimatedDelivery := "30-35 mins", placedAt := 42 }

/-- A concrete service state holding only `sampleOrder`. -/
def sampleOrderState : ServiceState :=
  { carts := [], orders := [("ORD42", sampleOrder)] }

/-- Witness for C3: tracking an unknown id fails; one call advances
`sampleOrder` one step; three calls drive it to `delivered`. -/
theorem claim_C3_witness :
    (trackOrder { carts := [], orders := [] } "ORDx" =
      (Except.error "Order not found", { carts := [], orders := [] })) ∧
    ((trackOrder sampleOrderState "ORD42").1 = Except.ok
        { orderId := sampleOrder.orderId, status := trackStep sampleOrder.status,
          estimatedDelivery := sampleOrder.estimatedDelivery,
          deliveryAddress := sampleOrder.deliveryAddress,
          total := sampleOrder.total } ∧
      mapGet (trackOrder sampleOrderState "ORD42").2.orders "ORD42" =
        some { sampleOrder with status := trackStep sampleOrder.status }) ∧
    (∃ v o3,
      (trackOrder (trackOrder (trackOrder sampleOrderState "ORD42").2 "ORD42").2
        "ORD42").1 = Except.ok v ∧ v.status = "delivered" ∧
      mapGet (trackOrder (trackOrder (trackOrder sampleOrderState "ORD42").2
        "ORD42").2 "ORD42").2.orders "ORD42" = some o3 ∧
      o3.status = "delivered") :=
  ⟨(claim_C3 { carts := [], orders := [] } "ORDx").1 (by decide),
   (claim_C3 sampleOrderState "ORD42").2.1 sampleOrder (by decide),
   (claim_C3 sampleOrderState "ORD42").2.2.2 sampleOrder (by decide) rfl⟩

/-- The cart line `addToCart` builds for a found menu item. -/
def cartLine (iid : String) (it : MenuItem) (q : Int) (cust : Option String) :
    CartItem :=
  { itemId := iid, name := it.name, price := it.price, quantity := q,
    customizations := cust, subtotal := (it.price : Int) * q }

/-- The cart object `addToCart` operates on: the session's existing cart, or
the freshly created one bound to this call's `restaurantId`. -/
def baseCart (st : ServiceState) (sid rid : String) : Cart :=
  (mapGet st.carts sid).getD { restaurantId := rid, items := [], total := 0 }

theorem addToCart_found (st : ServiceState) (sid rid iid : String) (q : Int)
    (cust : Option String) (it : MenuItem) (hit : findMenuItem rid iid = some it) :
    (addToCart st sid rid iid q cust).1 = Except.ok
      { restaurantId := (baseCart st sid rid).restaurantId,
        items := (baseCart st sid rid).items ++ [cartLine iid it q cust],
        total := sumSubtotals
          ((baseCart st sid rid).items ++ [cartLine iid it q cust]) } ∧
    mapGet (addToCart st sid rid iid q cust).2.carts sid = some
      { restaurantId := (baseCart st sid rid).restaurantId,
        items := (baseCart st sid rid).items ++ [cartLine iid it q cust],
        total := sumSubtotals
          ((baseCart st sid rid).items ++ [cartLine iid it q cust]) } := by
  unfold findMenuItem at hit
  cases hm : mapGet menusData rid with
  | none => rw [hm] at hit; cases hit
  | some menu =>
    rw [hm] at hit
    have hfind : findItem menu.categories iid = some it := hit
    refine ⟨?_, ?_⟩
    · simp [addToCart, hm, hfind, baseCart, cartLine]
    · simp only [addToCart, hm, hfind]
      simp [mapGet_mapSet_self, baseCart, cartLine]

theorem addToCart_noRestaurant (st : ServiceState) (sid rid iid : String)
    (q : Int) (cust : Option String) (hm : mapGet menusData rid = none) :
    (addToCart st sid rid iid q cust).1 = Except.error "Restaurant not found" ∧
    (addToCart st sid rid iid q cust).2 =
      (if (mapGet st.carts sid).isSome then st
       else { st with carts := mapSet st.carts sid
                        { restaurantId := rid, items := [], total := 0 } }) := by
  constructor <;> simp [addToCart, hm]

theorem addToCart_noItem (st : ServiceState) (sid rid iid : String)
    (q : Int) (cust : Option String) (menu : Menu)
    (hm : mapGet menusData rid = some menu)
    (hfind : findItem menu.categories iid = none) :
    (addToCart st sid rid iid q cust).1 = Except.error "Item not found" ∧
    (addToCart st sid rid iid q cust).2 =
      (if (mapGet st.carts sid).isSome then st
       else { st with carts := mapSet st.carts sid
                        { restaurantId := rid, items := [], total := 0 } }) := by
  constructor <;> simp [addToCart, hm, hfind]

theorem foldl_subtotal (items : List CartItem) : ∀ acc : Int,
    items.foldl (fun s it => s + it.subtotal) acc =
      acc + (items.map (fun l => l.subtotal)).sum := by
  induction items with
  | nil => intro acc; simp
  | cons x xs ih =>
    intro acc
    simp only [List.foldl_cons, List.map_cons, List.sum_cons]
    rw [ih (acc + x.subtotal)]
    omega

theorem sumSubtotals_eq_sum (items : List CartItem) :
    sumSubtotals items = (items.map (fun l => l.subtotal)).sum := by
  simpa using foldl_subtotal items 0

/-- C4: `addToCart` is non-idempotent: a successful call appends exactly one
new cart line and a second call with identical arguments appends a second,
equal line (no merge by item id); after every successful call the stored
total is recomputed as the sum of the lines' subtotals, each line's
subtotal being its `price × quantity`; concretely, adding `item_001`
(price 80) with quantity 2 twice yields total 320, not 160. -/
theorem claim_C4 (st : ServiceState) (sid rid iid : String) (q : Int)
    (cust : Option String) (it : MenuItem)
    (hit : findMenuItem rid iid = some it) :
    (∃ c1, (addToCart st sid rid iid q cust).1 = Except.ok c1 ∧
      c1.items = (baseCart st sid rid).items ++ [cartLine iid it q cust] ∧
      c1.total = sumSubtotals c1.items ∧
      mapGet (addToCart st sid rid iid q cust).2.carts sid = some c1 ∧
      ∃ c2, (addToCart (addToCart st sid rid iid q cust).2 sid rid iid q
          cust).1 = Except.ok c2 ∧
        c2.items = (baseCart st sid rid).items ++
          [cartLine iid it q cust, cartLine iid it q cust] ∧
        c2.total = sumSubtotals c2.items) ∧
    ((cartLine iid it q cust).subtotal =
      ((cartLine iid it q cust).price : Int) * (cartLine iid it q cust).quantity) ∧
    (∀ items : List CartItem,
      (∀ l ∈ items, l.subtotal = (l.price : Int) * l.quantity) →
      sumSubtotals items =
        (items.map (fun l => (l.price : Int) * l.quantity)).sum) ∧
    ((addToCart (addToCart { carts := [], orders := [] } "s" "rest_001"
        "item_001" 2 none).2 "s" "rest_001" "item_001" 2 none).1 =
      Except.ok { restaurantId := "rest_001",
                  items := [sampleCartLine, sampleCartLine], total := 320 }) := by
  have h1 := addToCart_found st sid rid iid q cust it hit
  refine ⟨⟨_, h1.1, rfl, rfl, h1.2, ?_⟩, rfl, ?_, by decide⟩
  · have hbase2 : baseCart (addToCart st sid rid iid q cust).2 sid rid =
        { restaurantId := (baseCart st sid rid).restaurantId,
          items := (baseCart st sid rid).items ++ [cartLine iid it q cust],
          total := sumSubtotals
            ((baseCart st sid rid).items ++ [cartLine iid it q cust]) } := by
      unfold baseCart
      rw [h1.2]
      rfl
    have h2 := addToCart_found (addToCart st sid rid iid q cust).2 sid rid iid
      q cust it hit
    refine ⟨_, h2.1, ?_, rfl⟩
    rw [hbase2]
    simp
  · intro items h
    rw [sumSubtotals_eq_sum]
    congr 1
    exact List.map_congr_left h

/-- The `item_001` menu entry, as stored in `menusData`. -/
def sevUsalItem : MenuItem :=
  { id := "item_001", name := "Sev Usal",
    description := "Traditional Gujarati breakfast with crispy sev and spicy usal",
    price := 80, veg := true, ratingTenths := 46 }

/-- Witness for C4: the double-add example from the spec, with literal
numbers. -/
theorem claim_C4_witness :
    (addToCart (addToCart { carts := [], orders := [] } "s" "rest_001"
        "item_001" 2 none).2 "s" "rest_001" "item_001" 2 none).1 =
      Except.ok { restaurantId := "rest_001",
                  items := [sampleCartLine, sampleCartLine], total := 320 } :=
  (claim_C4 { carts := [], orders := [] } "s" "rest_001" "item_001" 2 none
    sevUsalItem (by decide)).2.2.2

/-- The list `searchRestaurants` starts from: the region keyed by the
normalized location, or the `vadodara` fallback. -/
def baseRestaurants (location : String) : List Restaurant :=
  (mapGet restaurantsData (normalizeLocation location)).getD vadodaraRestaurants

/-- The cuisine criterion of `searchRestaurants`, as a proposition: absent
filter, or case-insensitive substring match. -/
def cuisineOk (cuisine : Option String) (r : Restaurant) : Prop :=
  match cuisine with
  | none => True
  | some c => strIncludes (lowerStr r.cuisine) (lowerStr c) = true

/-- The price criterion of `searchRestaurants`, as a proposition: absent
filter, or exact match. -/
def priceOk (priceRange : Option String) (r : Restaurant) : Prop :=
  match priceRange with
  | none => True
  | some p => r.priceRange = p

theorem includesList_nil (hay : List Char) : includesList hay [] = true := by
  cases hay <;> simp [includesList, startsWithList]

theorem jsProvided_none : jsProvided none = false := rfl

/-- Unfolding of `searchRestaurants` into the two conditional filters it
applies. -/
theorem searchRestaurants_eq (location : String) (cuisine priceRange : Option String) :
    (searchRestaurants location cuisine priceRange).restaurants =
      (if jsProvided priceRange = true then
        (if jsProvided cuisine = true then
           (baseRestaurants location).filter
             (fun r => strIncludes (lowerStr r.cuisine) (lowerStr (cuisine.getD "")))
         else baseRestaurants location).filter
          (fun r => r.priceRange == priceRange.getD "")
       else
        (if jsProvided cuisine = true then
           (baseRestaurants location).filter
             (fun r => strIncludes (lowerStr r.cuisine) (lowerStr (cuisine.getD "")))
         else baseRestaurants location)) := rfl

theorem iteFilter_sublist {α : Type} (b : Bool) (f : α → Bool) (l : List α) :
    (if b = true then l.filter f else l).Sublist l := by
  cases b
  · simp
  · simp [List.filter_sublist]

theorem iteFilter_mono {α : Type} (b : Bool) (f : α → Bool) {l1 l2 : List α}
    (h : l1.Sublist l2) :
    (if b = true then l1.filter f else l1).Sublist
      (if b = true then l2.filter f else l2) := by
  cases b
  · simpa using h
  · simpa using h.filter f

/-- C5: `searchRestaurants` draws only from the region list keyed by the
normalized (lower-cased, whitespace-stripped) location, falling back to the
`vadodara` region when no key matches; the optional cuisine filter keeps
exactly the restaurants whose cuisine contains the argument
case-insensitively, the optional priceRange filter keeps exactly those with
an equal `priceRange`, the two compose by logical AND preserving source
order (sublists), and adding a filter never enlarges the result. The
membership characterization for the price filter assumes the argument is
not the empty string (JS truthiness skips the filter for `""`; the tool
schema's enum `budget`/`mid-range`/`premium` excludes it). -/
theorem claim_C5 (location : String) (cuisine priceRange : Option String) :
    ((searchRestaurants location cuisine priceRange).restaurants.Sublist
      (baseRestaurants location)) ∧
    ((searchRestaurants location cuisine priceRange).restaurants.Sublist
      (searchRestaurants location none priceRange).restaurants) ∧
    ((searchRestaurants location cuisine priceRange).restaurants.Sublist
      (searchRestaurants location cuisine none).restaurants) ∧
    (priceRange ≠ some "" → ∀ r,
      r ∈ (searchRestaurants location cuisine priceRange).restaurants ↔
        (r ∈ baseRestaurants location ∧ cuisineOk cuisine r ∧
          priceOk priceRange r)) := by
  refine ⟨?_, ?_, ?_, ?_⟩
  · rw [searchRestaurants_eq]
    exact (iteFilter_sublist _ _ _).trans (iteFilter_sublist _ _ _)
  · rw [searchRestaurants_eq, searchRestaurants_eq]
    simp only [jsProvided_none, Bool.false_eq_true, if_false]
    exact iteFilter_mono _ _ (iteFilter_sublist _ _ _)
  · rw [searchRestaurants_eq, searchRestaurants_eq]
    simp only [jsProvided_none, Bool.false_eq_true, if_false]
    exact iteFilter_sublist _ _ _
  · intro hpne r
    rcases cuisine with _ | c
    · rcases priceRange with _ | p
      · simp [searchRestaurants, jsProvided, baseRestaurants, cuisineOk, priceOk]
      · have hp : ¬ p = "" := fun h => hpne (by rw [h])
        simp [searchRestaurants, jsProvided, baseRestaurants, cuisineOk, priceOk,
          hp, List.mem_filter]
    · by_cases hc : c = ""
      · subst hc
        rcases priceRange with _ | p
        · simp [searchRestaurants, jsProvided, baseRestaurants, cuisineOk,
            priceOk, strIncludes, lowerStr, includesList_nil]
        · have hp : ¬ p = "" := fun h => hpne (by rw [h])
          simp [searchRestaurants, jsProvided, baseRestaurants, cuisineOk,
            priceOk, hp, List.mem_filter, strIncludes, lowerStr, includesList_nil]
      · rcases priceRange with _ | p
        · simp [searchRestaurants, jsProvided, baseRestaurants, cuisineOk,
            priceOk, hc, List.mem_filter, strIncludes]
        · have hp : ¬ p = "" := fun h => hpne (by rw [h])
          simp [searchRestaurants, jsProvided, baseRestaurants, cuisineOk,
            priceOk, hc, hp, List.mem_filter, strIncludes]
          tauto

/-- Witness for C5: the Gujarati/budget search over Vadodara, evaluated at
`rest_001`. -/
theorem claim_C5_witness :
    ((searchRestaurants "Vadodara" (some "Gujarati") (some "budget")).restaurants.Sublist
      (baseRestaurants "Vadodara")) ∧
    (sevUsalHouse ∈
        (searchRestaurants "Vadodara" (some "Gujarati") (some "budget")).restaurants ↔
      (sevUsalHouse ∈ baseRestaurants "Vadodara" ∧
        cuisineOk (some "Gujarati") sevUsalHouse ∧
        priceOk (some "budget") sevUsalHouse)) :=
  ⟨(claim_C5 "Vadodara" (some "Gujarati") (some "budget")).1,
   (claim_C5 "Vadodara" (some "Gujarati") (some "budget")).2.2.2
     (by decide) sevUsalHouse⟩

/-- Counterexample for C6: `addToCart` with quantity `0` is not rejected —
it succeeds and appends a zero-quantity, zero-subtotal line to the cart
(no `InvalidQuantityError` exists anywhere in the code). -/
theorem claim_C6_cex :
    (addToCart { carts := [], orders := [] } "s1" "rest_001" "item_001" 0
        none).1 =
      Except.ok (⟨"rest_001", [⟨"item_001", "Sev Usal", 80, 0, none, 0⟩], 0⟩ :
        Cart) ∧
    mapGet (addToCart { carts := [], orders := [] } "s1" "rest_001" "item_001"
        0 none).2.carts "s1" =
      some (⟨"rest_001", [⟨"item_001", "Sev Usal", 80, 0, none, 0⟩], 0⟩ :
        Cart) ∧
    (addToCart { carts := [], orders := [] } "s1" "rest_001" "item_001" (-3)
        none).1 =
      Except.ok (⟨"rest_001", [⟨"item_001", "Sev Usal", 80, -3, none, -240⟩],
        -240⟩ : Cart) := by
  refine ⟨by decide, by decide, by decide⟩

/-- C6 (amended): `addToCart` performs no quantity validation: for every
quantity — zero and negative included — the call's outcome is decided
solely by the restaurant and item lookups, and on success the appended
line stores the given quantity and the subtotal `price × quantity`. The
positive-quantity constraint exists only as the tool schema's
`minimum: 1` annotation, which the service does not enforce. -/
theorem claim_C6 (st : ServiceState) (sid rid iid : String) (q : Int)
    (cust : Option String) (it : MenuItem)
    (hit : findMenuItem rid iid = some it) :
    ∃ c, (addToCart st sid rid iid q cust).1 = Except.ok c ∧
      c.items = (baseCart st sid rid).items ++ [cartLine iid it q cust] ∧
      (cartLine iid it q cust).quantity = q ∧
      (cartLine iid it q cust).subtotal = (it.price : Int) * q :=
  ⟨_, (addToCart_found st sid rid iid q cust it hit).1, rfl, rfl, rfl⟩

/-- Witness for C6 (amended): quantity `-3` is accepted against the live
menu data. -/
theorem claim_C6_witness :
    ∃ c, (addToCart { carts := [], orders := [] } "s1" "rest_001" "item_001"
        (-3) none).1 = Except.ok c ∧
      c.items = (baseCart { carts := [], orders := [] } "s1" "rest_001").items
        ++ [cartLine "item_001" sevUsalItem (-3) none] ∧
      (cartLine "item_001" sevUsalItem (-3) none).quantity = -3 ∧
      (cartLine "item_001" sevUsalItem (-3) none).subtotal =
        (sevUsalItem.price : Int) * (-3) :=
  claim_C6 { carts := [], orders := [] } "s1" "rest_001" "item_001" (-3) none
    sevUsalItem (by decide)

/-- The order `placeOrder` constructs from cart `c` at timestamp `now`. -/
def mkOrder (c : Cart) (addr pm : String) (now : Nat) : Order :=
  { orderId := "ORD" ++ Nat.repr now, items := c.items, total := c.total,
    deliveryAddress := addr, paymentMethod := pm, status := "confirmed",
    estimatedDelivery := "30-35 mins", placedAt := now }

theorem placeOrder_some (st : ServiceState) (sid addr pm : String) (now : Nat)
    (c : Cart) (h : mapGet st.carts sid = some c) (hne : c.items ≠ []) :
    placeOrder st sid addr pm now =
      (Except.ok (mkOrder c addr pm now),
       { st with orders := mapSet st.orders ("ORD" ++ Nat.repr now)
                   (mkOrder c addr pm now),
                 carts := mapDelete st.carts sid }) := by
  simp [placeOrder, h, hne, mkOrder]

/-- A second concrete one-line cart, for a second session. -/
def dabeliCart : Cart :=
  { restaurantId := "rest_001",
    items := [{ itemId := "item_002", name := "Dabeli", price := 40,
                quantity := 1, customizations := none, subtotal := 40 }],
    total := 40 }

/-- Two sessions with non-empty carts and an empty order store. -/
def collideState : ServiceState :=
  { carts := [("s1", sampleCart), ("s2", dabeliCart)], orders := [] }

/-- Counterexample for C7: two successful `placeOrder` calls in the same
millisecond (`Date.now() = 1000` for both) generate the *same* order id
`ORD1000`, and the later order overwrites the earlier one in the order
store. -/
theorem claim_C7_cex :
    (placeOrder collideState "s1" "a1" "card" 1000).1 =
      Except.ok (mkOrder sampleCart "a1" "card" 1000) ∧
    (placeOrder (placeOrder collideState "s1" "a1" "card" 1000).2 "s2" "a2"
        "card" 1000).1 = Except.ok (mkOrder dabeliCart "a2" "card" 1000) ∧
    (mkOrder sampleCart "a1" "card" 1000).orderId =
      (mkOrder dabeliCart "a2" "card" 1000).orderId ∧
    mkOrder sampleCart "a1" "card" 1000 ≠ mkOrder dabeliCart "a2" "card" 1000 ∧
    mapGet (placeOrder (placeOrder collideState "s1" "a1" "card" 1000).2 "s2"
        "a2" "card" 1000).2.orders "ORD1000" =
      some (mkOrder dabeliCart "a2" "card" 1000) := by
  refine ⟨by decide, by decide, by decide, by decide, by decide⟩

/-- C7 (amended): order ids are `"ORD" ++ decimal(Date.now())` with no
counter, so uniqueness holds only across calls whose millisecond timestamps
differ: two successful `placeOrder` calls on distinct sessions with
`now1 ≠ now2` yield distinct order ids and both orders remain present in
the store; calls sharing a timestamp collide (see the counterexample). -/
theorem claim_C7 (st : ServiceState) (sid1 sid2 a1 a2 p1 p2 : String)
    (now1 now2 : Nat) (c1 c2 : Cart)
    (h1 : mapGet st.carts sid1 = some c1) (hne1 : c1.items ≠ [])
    (h2 : mapGet st.carts sid2 = some c2) (hne2 : c2.items ≠ [])
    (hsid : sid2 ≠ sid1) (hnow : now1 ≠ now2) :
    ∃ o1 o2,
      (placeOrder st sid1 a1 p1 now1).1 = Except.ok o1 ∧
      (placeOrder (placeOrder st sid1 a1 p1 now1).2 sid2 a2 p2 now2).1 =
        Except.ok o2 ∧
      o1.orderId ≠ o2.orderId ∧
      mapGet (placeOrder (placeOrder st sid1 a1 p1 now1).2 sid2 a2 p2
        now2).2.orders o1.orderId = some o1 ∧
      mapGet (placeOrder (placeOrder st sid1 a1 p1 now1).2 sid2 a2 p2
        now2).2.orders o2.orderId = some o2 := by
  have P1 := placeOrder_some st sid1 a1 p1 now1 c1 h1 hne1
  have hc2' : mapGet (placeOrder st sid1 a1 p1 now1).2.carts sid2 = some c2 := by
    rw [P1]
    exact (mapGet_mapDelete_ne _ _ _ hsid).trans h2
  have P2 := placeOrder_some _ sid2 a2 p2 now2 c2 hc2' hne2
  have hid : ("ORD" ++ Nat.repr now1) ≠ ("ORD" ++ Nat.repr now2) := by
    intro h
    apply hnow
    apply natRepr_inj
    have hdata : "ORD".data ++ (Nat.repr now1).data =
        "ORD".data ++ (Nat.repr now2).data := by
      simpa [String.data_append] using congrArg String.data h
    exact String.ext (List.append_cancel_left hdata)
  refine ⟨mkOrder c1 a1 p1 now1, mkOrder c2 a2 p2 now2,
    by rw [P1], by rw [P2], hid, ?_, ?_⟩
  · rw [P2]
    show mapGet (mapSet (placeOrder st sid1 a1 p1 now1).2.orders
      ("ORD" ++ Nat.repr now2) (mkOrder c2 a2 p2 now2))
      ("ORD" ++ Nat.repr now1) = some (mkOrder c1 a1 p1 now1)
    rw [mapGet_mapSet_ne _ _ _ _ hid, P1]
    exact mapGet_mapSet_self _ _ _
  · rw [P2]
    exact mapGet_mapSet_self _ _ _

/-- Witness for C7 (amended): the two-session state, with distinct
timestamps 1000 and 1001. -/
theorem claim_C7_witness :
    ∃ o1 o2,
      (placeOrder collideState "s1" "a1" "card" 1000).1 = Except.ok o1 ∧
      (placeOrder (placeOrder collideState "s1" "a1" "card" 1000).2 "s2" "a2"
        "card" 1001).1 = Except.ok o2 ∧
      o1.orderId ≠ o2.orderId ∧
      mapGet (placeOrder (placeOrder collideState "s1" "a1" "card" 1000).2
        "s2" "a2" "card" 1001).2.orders o1.orderId = some o1 ∧
      mapGet (placeOrder (placeOrder collideState "s1" "a1" "card" 1000).2
        "s2" "a2" "card" 1001).2.orders o2.orderId = some o2 :=
  claim_C7 collideState "s1" "s2" "a1" "a2" "card" "card" 1000 1001
    sampleCart dabeliCart (by decide) (by decide) (by decide) (by decide)
    (by decide) (by decide)

/-- Counterexample for C8: registering a second tool under an
already-registered name does not fail — `registerTool` has no failure path
(no `DuplicateToolError` exists in the code) — and it silently replaces
the previously registered definition rather than leaving it unchanged. -/
theorem claim_C8_cex :
    mapGet (registerTool
        (registerTool [] ⟨"search_restaurants", "first definition"⟩)
        ⟨"search_restaurants", "second definition"⟩) "search_restaurants" =
      some ⟨"search_restaurants", "second definition"⟩ ∧
    (⟨"search_restaurants", "second definition"⟩ : ToolDef) ≠
      ⟨"search_restaurants", "first definition"⟩ := by
  refine ⟨by decide, by decide⟩

theorem mapGet_eq_none_iff {α : Type} (l : List (String × α)) (k : String) :
    mapGet l k = none ↔ k ∉ l.map Prod.fst := by
  induction l with
  | nil => simp [mapGet]
  | cons p rest ih =>
    obtain ⟨k', v⟩ := p
    by_cases h : k' = k
    · subst h
      simp [mapGet]
    · simp [mapGet, h, ih, Ne.symm h]

theorem mapSet_keys {α : Type} (l : List (String × α)) (k : String) (v : α) :
    (mapSet l k v).map Prod.fst =
      if (mapGet l k).isSome then l.map Prod.fst else l.map Prod.fst ++ [k] := by
  induction l with
  | nil => simp [mapSet, mapGet]
  | cons p rest ih =>
    obtain ⟨k', w⟩ := p
    by_cases h : k' = k
    · subst h
      simp [mapSet, mapGet]
    · simp only [mapSet, mapGet, h, if_false, beq_iff_eq, List.map_cons]
      rw [ih]
      by_cases hs : (mapGet rest k).isSome <;> simp [hs]

/-- C8 (amended): `registerTool` never rejects a duplicate name: it maps
the definition's name to the new definition (last write wins), leaves every
other name's binding unchanged, and preserves distinctness of the
registry's keys — so each name is still bound to at most one definition. -/
theorem claim_C8 (tools : List (String × ToolDef)) (d : ToolDef) :
    mapGet (registerTool tools d) d.name = some d ∧
    (∀ n, n ≠ d.name → mapGet (registerTool tools d) n = mapGet tools n) ∧
    ((tools.map Prod.fst).Nodup → ((registerTool tools d).map Prod.fst).Nodup) := by
  refine ⟨mapGet_mapSet_self _ _ _, fun n hn => mapGet_mapSet_ne _ _ _ _ hn, ?_⟩
  intro hnd
  unfold registerTool
  rw [mapSet_keys]
  by_cases hs : (mapGet tools d.name).isSome
  · simpa [hs] using hnd
  · have hnone : mapGet tools d.name = none := by
      cases hm : mapGet tools d.name
      · rfl
      · rw [hm] at hs; simp at hs
    have hnotin : d.name ∉ tools.map Prod.fst := (mapGet_eq_none_iff _ _).mp hnone
    simp [hs, List.nodup_append, hnd, hnotin]

/-- Witness for C8 (amended): registering `search_restaurants` into a
registry holding `get_menu`. -/
theorem claim_C8_witness :
    mapGet (registerTool [("get_menu", ⟨"get_menu", "menu tool"⟩)]
        ⟨"search_restaurants", "search tool"⟩) "search_restaurants" =
      some ⟨"search_restaurants", "search tool"⟩ ∧
    mapGet (registerTool [("get_menu", ⟨"get_menu", "menu tool"⟩)]
        ⟨"search_restaurants", "search tool"⟩) "get_menu" =
      mapGet [("get_menu", (⟨"get_menu", "menu tool"⟩ : ToolDef))] "get_menu" ∧
    ((registerTool [("get_menu", ⟨"get_menu", "menu tool"⟩)]
        ⟨"search_restaurants", "search tool"⟩).map Prod.fst).Nodup :=
  ⟨(claim_C8 _ _).1, (claim_C8 _ _).2.1 "get_menu" (by decide),
   (claim_C8 _ _).2.2 (by decide)⟩

theorem appendTurn_spec (h : List ChatMessage) (u m : String)
    (hlen : h.length ≤ 40) (heven : 2 ∣ h.length) :
    (appendTurn h u m).length ≤ 40 ∧ 2 ∣ (appendTurn h u m).length ∧
    ∃ k, 2 ∣ k ∧ k ≤ h.length ∧
      appendTurn h u m = (h ++ [userMsg u, modelMsg m]).drop k ∧
      ∃ t, appendTurn h u m = t ++ [userMsg u, modelMsg m] := by
  unfold appendTurn
  by_cases hq : 40 < h.length + 2
  · have hcond : 40 < (h ++ [userMsg u, modelMsg m]).length := by
      simpa using hq
    rw [if_pos hcond]
    have hk : (h ++ [userMsg u, modelMsg m]).length - 40 =
        h.length + 2 - 40 := by
      simp
    refine ⟨by simp; omega, by simp; omega, h.length + 2 - 40, by omega, by omega,
      by rw [hk], h.drop (h.length + 2 - 40), ?_⟩
    rw [hk, List.drop_append_eq_append_drop]
    have : h.length + 2 - 40 - h.length = 0 := by omega
    rw [this, List.drop_zero]
  · have hcond : ¬ 40 < (h ++ [userMsg u, modelMsg m]).length := by
      simpa using hq
    rw [if_neg hcond]
    exact ⟨by simp; omega, by simp; omega, 0, by omega, by omega,
      by simp, h, rfl⟩

/-- C9: each completed chat turn appends exactly one (user, model) pair and
then truncates the history from the front to at most 40 messages; for every
reachable session history the length is even and at most 40, and any
further turn drops an even number of messages (whole pairs, oldest first)
from the front while the just-appended pair is the suffix of the result. -/
theorem claim_C9 : ∀ h, ReachableHistory h →
    2 ∣ h.length ∧ h.length ≤ 40 ∧
    ∀ u m, ∃ k, 2 ∣ k ∧ k ≤ h.length ∧
      appendTurn h u m = (h ++ [userMsg u, modelMsg m]).drop k ∧
      ∃ t, appendTurn h u m = t ++ [userMsg u, modelMsg m] := by
  intro h hre
  induction hre with
  | init =>
    refine ⟨by simp, by simp, fun u m => ?_⟩
    exact (appendTurn_spec [] u m (by simp) (by simp)).2.2
  | step h u m hre ih =>
    have hs := appendTurn_spec h u m ih.2.1 ih.1
    exact ⟨hs.2.1, hs.1, fun u' m' =>
      (appendTurn_spec (appendTurn h u m) u' m' hs.1 hs.2.1).2.2⟩

/-- Witness for C9: the empty history is reachable; one turn appends the
pair with no truncation. -/
theorem claim_C9_witness :
    2 ∣ ([] : List ChatMessage).length ∧
    ∃ k, 2 ∣ k ∧ k ≤ ([] : List ChatMessage).length ∧
      appendTurn [] "hi" "hello" =
        (([] : List ChatMessage) ++ [userMsg "hi", modelMsg "hello"]).drop k ∧
      ∃ t, appendTurn [] "hi" "hello" = t ++ [userMsg "hi", modelMsg "hello"] :=
  ⟨(claim_C9 [] ReachableHistory.init).1,
   (claim_C9 [] ReachableHistory.init).2.2 "hi" "hello"⟩

/-- C10: `addToCart` on a session with no cart inserts an empty cart bound
to that call's `restaurantId` before validating the restaurant or item, so
the cart persists (with that binding) even when the call then fails; no
later `addToCart` call ever changes the cart's `restaurantId`; and a call
naming a different restaurant is neither rejected nor rebound — it appends
that restaurant's item to the same cart. -/
theorem claim_C10 (st : ServiceState) (sid rid iid : String) (q : Int)
    (cust : Option String) :
    (mapGet st.carts sid = none →
      (∃ c', mapGet (addToCart st sid rid iid q cust).2.carts sid = some c' ∧
        c'.restaurantId = rid) ∧
      (findMenuItem rid iid = none →
        (∃ e, (addToCart st sid rid iid q cust).1 = Except.error e) ∧
        mapGet (addToCart st sid rid iid q cust).2.carts sid =
          some { restaurantId := rid, items := [], total := 0 })) ∧
    (∀ c, mapGet st.carts sid = some c →
      ∃ c', mapGet (addToCart st sid rid iid q cust).2.carts sid = some c' ∧
        c'.restaurantId = c.restaurantId) ∧
    (∀ c it, mapGet st.carts sid = some c → findMenuItem rid iid = some it →
      ∃ c', (addToCart st sid rid iid q cust).1 = Except.ok c' ∧
        c'.restaurantId = c.restaurantId ∧
        c'.items = c.items ++ [cartLine iid it q cust]) := by
  refine ⟨?_, ?_, ?_⟩
  · intro hm
    have hfresh : baseCart st sid rid =
        { restaurantId := rid, items := [], total := 0 } := by
      simp [baseCart, hm]
    constructor
    · cases hit : findMenuItem rid iid with
      | some it =>
        have hf := addToCart_found st sid rid iid q cust it hit
        exact ⟨_, hf.2, by rw [hfresh]⟩
      | none =>
        unfold findMenuItem at hit
        cases hmenu : mapGet menusData rid with
        | none =>
          have hnr := addToCart_noRestaurant st sid rid iid q cust hmenu
          refine ⟨{ restaurantId := rid, items := [], total := 0 }, ?_, rfl⟩
          rw [hnr.2]
          simp [hm, mapGet_mapSet_self]
        | some menu =>
          rw [hmenu] at hit
          have hni := addToCart_noItem st sid rid iid q cust menu hmenu hit
          refine ⟨{ restaurantId := rid, items := [], total := 0 }, ?_, rfl⟩
          rw [hni.2]
          simp [hm, mapGet_mapSet_self]
    · intro hit
      unfold findMenuItem at hit
      cases hmenu : mapGet menusData rid with
      | none =>
        have hnr := addToCart_noRestaurant st sid rid iid q cust hmenu
        refine ⟨⟨_, hnr.1⟩, ?_⟩
        rw [hnr.2]
        simp [hm, mapGet_mapSet_self]
      | some menu =>
        rw [hmenu] at hit
        have hni := addToCart_noItem st sid rid iid q cust menu hmenu hit
        refine ⟨⟨_, hni.1⟩, ?_⟩
        rw [hni.2]
        simp [hm, mapGet_mapSet_self]
  · intro c hm
    have hbase : baseCart st sid rid = c := by simp [baseCart, hm]
    cases hit : findMenuItem rid iid with
    | some it =>
      have hf := addToCart_found st sid rid iid q cust it hit
      exact ⟨_, hf.2, by rw [hbase]⟩
    | none =>
      unfold findMenuItem at hit
      cases hmenu : mapGet menusData rid with
      | none =>
        have hnr := addToCart_noRestaurant st sid rid iid q cust hmenu
        refine ⟨c, ?_, rfl⟩
        rw [hnr.2]
        simp [hm]
      | some menu =>
        rw [hmenu] at hit
        have hni := addToCart_noItem st sid rid iid q cust menu hmenu hit
        refine ⟨c, ?_, rfl⟩
        rw [hni.2]
        simp [hm]
  · intro c it hm hit
    have hbase : baseCart st sid rid = c := by simp [baseCart, hm]
    have hf := addToCart_found st sid rid iid q cust it hit
    exact ⟨_, hf.1, by rw [hbase], by rw [hbase]⟩

/-- The `item_101` menu entry of `rest_002`, as stored in `menusData`. -/
def butterChicken : MenuItem :=
  { id := "item_101", name := "Butter Chicken",
    description := "Creamy tomato-based chicken curry",
    price := 280, veg := false, ratingTenths := 46 }

/-- Witness for C10: a failing first call still creates and binds the cart;
an existing `rest_001` cart accepts a `rest_002` item without rejection or
rebinding. -/
theorem claim_C10_witness :
    ((∃ e, (addToCart { carts := [], orders := [] } "s1" "rest_404"
        "item_001" 1 none).1 = Except.error e) ∧
      mapGet (addToCart { carts := [], orders := [] } "s1" "rest_404"
        "item_001" 1 none).2.carts "s1" =
        some { restaurantId := "rest_404", items := [], total := 0 }) ∧
    (∃ c', (addToCart sampleState "s1" "rest_002" "item_101" 1 none).1 =
        Except.ok c' ∧
      c'.restaurantId = sampleCart.restaurantId ∧
      c'.items = sampleCart.items ++ [cartLine "item_101" butterChicken 1 none]) :=
  ⟨((claim_C10 { carts := [], orders := [] } "s1" "rest_404" "item_001" 1
      none).1 (by decide)).2 (by decide),
   (claim_C10 sampleState "s1" "rest_002" "item_101" 1 none).2.2 sampleCart
     butterChicken (by decide) (by decide)⟩

end Zomatooo
